import Mathlib

/-!
# Verification of the pellet-stove heating watchdog

A shallow embedding of `heating-watchdog.js`: a supervisory loop that watches
a thermostat and power-cycles a pellet stove's plug when the stove reports
"heating" while the temperature declines.

Modelling conventions:
* JS numbers carrying temperatures and setpoints are rationals (`ℚ`);
  timestamps (`Date.now()`) are integers (`ℤ`).
* The Wyze API client is the "Device Gateway" boundary.  One tick performs at
  most one thermostat lookup, one thermostat read, one plug lookup and one
  plug-off / plug-on command; a `Gateway` record gives the environment's
  response to each potential call, `Except Unit α` modelling a call that may
  throw (`.error ()`) or return a value.
* JS mutations that happen before an exception is thrown persist after the
  `catch`; handlers therefore return `Except Watchdog Watchdog`, the error
  payload being the (possibly partially mutated) runtime state at the point
  where the gateway call threw.
-/

namespace PelletStove

/-- The `CONFIG` object at the top of `heating-watchdog.js`. -/
structure Config where
  checkIntervalMs : ℤ
  cycleWaitMs : ℤ
  powerOffDurationMs : ℤ
  tempThreshold : ℚ
  maxCycles : Nat
  thermostatName : String
  plugName : String
deriving Repr, DecidableEq

/-- The concrete configuration values from the source. -/
def CONFIG : Config :=
  { checkIntervalMs := 60 * 1000
    cycleWaitMs := 10 * 60 * 1000
    powerOffDurationMs := 10 * 1000
    tempThreshold := 2
    maxCycles := 3
    thermostatName := "Living Room"
    plugName := "Living Room" }

/-- `const MAX_HISTORY = 10` — bound on the temperature history buffer. -/
def MAX_HISTORY : Nat := 10

/-- The `State` string-enum of the source, as a closed inductive. -/
inductive State where
  | MONITORING
  | WAITING_FOR_IGNITION
  | WAITING_AFTER_CYCLE
  | FAILED
deriving Repr, DecidableEq

/-- One entry of `tempHistory`: `{ timestamp, temperature, setpoint }`. -/
structure Sample where
  timestamp : ℤ
  temperature : ℚ
  setpoint : ℚ
deriving Repr, DecidableEq

instance : Inhabited Sample := ⟨⟨0, 0, 0⟩⟩

/-- The mutable module-level runtime state of the watchdog
(`state`, `cycleCount`, `lastCycleTime`, `ignitionStartTime`,
`lastWorkingState`, `tempHistory`). -/
structure Watchdog where
  state : State
  cycleCount : Nat
  lastCycleTime : Option ℤ
  ignitionStartTime : Option ℤ
  lastWorkingState : Option String
  tempHistory : List Sample
deriving Repr, DecidableEq

/-- The initial runtime state (module-level initialisers in the source). -/
def initialWatchdog : Watchdog :=
  { state := State.MONITORING
    cycleCount := 0
    lastCycleTime := none
    ignitionStartTime := none
    lastWorkingState := none
    tempHistory := [] }

/-- A device as returned by `wyze.getDevices()` (the fields the core reads). -/
structure Device where
  nickname : String
  product_type : String
  mac : String
  product_model : String
deriving Repr, DecidableEq

/-- The thermostat data returned by `wyze.getThermostat(mac)`. -/
structure ThermoData where
  workingState : String
  temperature : ℚ
  heatSetpoint : ℚ
deriving Repr, DecidableEq

/-- The Device Gateway's responses to the calls one tick can make.
`Except Unit α`: `.error ()` is the call throwing, `.ok a` a returned value.
`thermoData` is `Option`al so a null thermostat payload also takes the
`if (!data) return` early exit of the handlers. -/
structure Gateway where
  thermoDevices : Except Unit (List Device)
  thermoData : Except Unit (Option ThermoData)
  plugDevices : Except Unit (List Device)
  plugOffRes : Except Unit Bool
  plugOnRes : Except Unit Bool

/-- `addTempReading(temperature, setpoint)`: push a sample, `shift` the oldest
when the length exceeds `MAX_HISTORY`. -/
def addTempReading (hist : List Sample) (now : ℤ) (temperature setpoint : ℚ) :
    List Sample :=
  let h := hist ++ [⟨now, temperature, setpoint⟩]
  if h.length > MAX_HISTORY then h.tail else h

/-- `isTemperatureDeclining()`: needs ≥ 2 samples; compares the newest sample
against the one at index `max(0, length - 3)`; a lowered setpoint overrides;
otherwise declining iff the temperature dropped by ≥ 1 degree. -/
def isTemperatureDeclining (hist : List Sample) : Bool :=
  if hist.length < 2 then
    false
  else
    let current := hist.getD (hist.length - 1) default
    let compareIndex := max 0 (hist.length - 3)
    let previous := hist.getD compareIndex default
    if current.setpoint < previous.setpoint then
      false
    else
      decide (previous.temperature - current.temperature ≥ 1)

/-- `getPlugByName(name)`: `getDevices()` then `find` by nickname and
`product_type === "Plug"`. -/
def getPlugByName (gw : Gateway) (name : String) : Except Unit (Option Device) :=
  match gw.plugDevices with
  | .error e => .error e
  | .ok devices =>
      .ok (devices.find? fun d => d.nickname == name && d.product_type == "Plug")

/-- `getThermostatByName(name)`: `getDevices()` then `find` by nickname and
`product_type === "Thermostat"`. -/
def getThermostatByName (gw : Gateway) (name : String) :
    Except Unit (Option Device) :=
  match gw.thermoDevices with
  | .error e => .error e
  | .ok devices =>
      .ok (devices.find? fun d => d.nickname == name && d.product_type == "Thermostat")

/-- `cyclePlug()`: resolve the plug (fail if missing), command OFF (fail if the
gateway reports failure), sleep `powerOffDurationMs`, command ON (fail if the
gateway reports failure); success only once the gateway has reported the plug
back ON. -/
def cyclePlug (gw : Gateway) : Except Unit Bool :=
  match getPlugByName gw CONFIG.plugName with
  | .error e => .error e
  | .ok none => .ok false
  | .ok (some _) =>
      match gw.plugOffRes with
      | .error e => .error e
      | .ok false => .ok false
      | .ok true =>
          match gw.plugOnRes with
          | .error e => .error e
          | .ok false => .ok false
          | .ok true => .ok true

/-- `checkThermostat()`: resolve the thermostat by name (null if missing), then
read its data. -/
def checkThermostat (gw : Gateway) : Except Unit (Option ThermoData) :=
  match getThermostatByName gw CONFIG.thermostatName with
  | .error e => .error e
  | .ok none => .ok none
  | .ok (some _) => gw.thermoData

/-- The mutations of `handleMonitoring()` on the non-edge path that precede the
intervention test: update `lastWorkingState`, `addTempReading`, and reset
`cycleCount` to 0 when `cycleCount > 0 && (!isHeating || !isBelowThreshold)`
(here `¬(tempDiff ≥ θ)` is written `tempDiff < θ`). -/
def monitoringUpdate (w : Watchdog) (now : ℤ) (data : ThermoData) : Watchdog :=
  let w1 : Watchdog :=
    { w with lastWorkingState := some data.workingState
             tempHistory :=
               addTempReading w.tempHistory now data.temperature data.heatSetpoint }
  if w1.cycleCount > 0 ∧
      (data.workingState ≠ "heating" ∨
        data.heatSetpoint - data.temperature < CONFIG.tempThreshold) then
    { w1 with cycleCount := 0 }
  else w1

/-- The body of `handleMonitoring()` once `checkThermostat()` has returned
data: ignition-edge detection, the pre-intervention mutations
(`monitoringUpdate`), and the intervention test with the power cycle. -/
def monitoringWithData (w : Watchdog) (gw : Gateway) (now : ℤ) (data : ThermoData) :
    Except Watchdog Watchdog :=
  let tempDiff := data.heatSetpoint - data.temperature
  if data.workingState = "heating" ∧ w.lastWorkingState ≠ some "heating" then
    .ok { w with ignitionStartTime := some now
                 tempHistory := []
                 lastWorkingState := some data.workingState
                 state := State.WAITING_FOR_IGNITION }
  else
    let w2 := monitoringUpdate w now data
    if data.workingState = "heating" ∧ tempDiff ≥ CONFIG.tempThreshold ∧
        isTemperatureDeclining w2.tempHistory = true then
      if w2.cycleCount ≥ CONFIG.maxCycles then
        .ok { w2 with state := State.FAILED }
      else
        match cyclePlug gw with
        | .error _ => .error w2
        | .ok true =>
            .ok { w2 with cycleCount := w2.cycleCount + 1
                          lastCycleTime := some now
                          state := State.WAITING_AFTER_CYCLE }
        | .ok false => .ok w2
    else
      .ok w2

/-- `handleMonitoring()`.  The error payload is the runtime state at the point
the gateway call threw (mutations already performed persist). -/
def handleMonitoring (w : Watchdog) (gw : Gateway) (now : ℤ) :
    Except Watchdog Watchdog :=
  match checkThermostat gw with
  | .error _ => .error w
  | .ok none => .ok w
  | .ok (some data) => monitoringWithData w gw now data

/-- `handleWaitingForIgnition()`: no-op while inside the grace period, else
clear the history and return to MONITORING.  (`Date.now() - null` in JS
coerces `null` to 0, hence `getD 0`.) -/
def handleWaitingForIgnition (w : Watchdog) (now : ℤ) :
    Except Watchdog Watchdog :=
  let elapsed := now - (w.ignitionStartTime.getD 0)
  let remaining := CONFIG.cycleWaitMs - elapsed
  if remaining > 0 then
    .ok w
  else
    .ok { w with tempHistory := [], state := State.MONITORING }

/-- `handleWaitingAfterCycle()`: same timer logic over `lastCycleTime`. -/
def handleWaitingAfterCycle (w : Watchdog) (now : ℤ) :
    Except Watchdog Watchdog :=
  let elapsed := now - (w.lastCycleTime.getD 0)
  let remaining := CONFIG.cycleWaitMs - elapsed
  if remaining > 0 then
    .ok w
  else
    .ok { w with tempHistory := [], state := State.MONITORING }

/-- `handleFailed()`: read the thermostat; if not heating or back within the
threshold, reset the cycle count, clear the history and resume MONITORING. -/
def handleFailed (w : Watchdog) (gw : Gateway) : Except Watchdog Watchdog :=
  match checkThermostat gw with
  | .error _ => .error w
  | .ok none => .ok w
  | .ok (some data) =>
    let tempDiff := data.heatSetpoint - data.temperature
    if data.workingState ≠ "heating" ∨ tempDiff < CONFIG.tempThreshold then
      .ok { w with cycleCount := 0
                   tempHistory := []
                   state := State.MONITORING }
    else
      .ok w

/-- The `switch (state)` dispatch inside `tick()`'s `try` block. -/
def dispatch (w : Watchdog) (gw : Gateway) (now : ℤ) :
    Except Watchdog Watchdog :=
  match w.state with
  | State.MONITORING => handleMonitoring w gw now
  | State.WAITING_FOR_IGNITION => handleWaitingForIgnition w now
  | State.WAITING_AFTER_CYCLE => handleWaitingAfterCycle w now
  | State.FAILED => handleFailed w gw

/-- `tick()`: runs the current state's handler; a thrown gateway error is
caught (and logged), leaving whatever mutations had already happened. -/
def tick (w : Watchdog) (gw : Gateway) (now : ℤ) : Watchdog :=
  match dispatch w gw now with
  | .ok w' => w'
  | .error w' => w'

/-- Whether some Device Gateway call threw during this tick (the `catch`
branch of `tick()` ran). -/
def tickThrew (w : Watchdog) (gw : Gateway) (now : ℤ) : Bool :=
  match dispatch w gw now with
  | .ok _ => false
  | .error _ => true

/-! ### Operation sequences on the History Buffer

The source mutates `tempHistory` in exactly two ways: `addTempReading(...)`
and `tempHistory = []`.  To state the buffer invariant over arbitrary
histories of use we close these two operations under sequencing. -/

/-- One mutation of the History Buffer as performed by the source. -/
inductive HistOp where
  | record (now : ℤ) (temperature setpoint : ℚ)
  | clear
deriving Repr, DecidableEq

/-- Apply one buffer mutation (`addTempReading` or `tempHistory = []`). -/
def applyHistOp (hist : List Sample) : HistOp → List Sample
  | .record now temperature setpoint => addTempReading hist now temperature setpoint
  | .clear => []

/-- Run a sequence of buffer mutations from a given buffer. -/
def runHistOps (hist : List Sample) : List HistOp → List Sample
  | [] => hist
  | op :: rest => runHistOps (applyHistOp hist op) rest

/-- The samples recorded since the last `clear`, in insertion order,
accumulated in `acc`. -/
def recordedAux (acc : List Sample) : List HistOp → List Sample
  | [] => acc
  | .record now temperature setpoint :: rest =>
      recordedAux (acc ++ [⟨now, temperature, setpoint⟩]) rest
  | .clear :: rest => recordedAux [] rest

/-- The samples recorded since the last `clear`, in insertion order. -/
def recordedSinceClear (ops : List HistOp) : List Sample :=
  recordedAux [] ops

/-! ### The spec's description of the Trend Detector -/

/-- Modelled from the spec (§4.2), for comparison against the source's
`isTemperatureDeclining`: false with fewer than 2 samples; `current` is the
most recent sample and `reference` the sample at index `max(0, length-3)`;
false when the current setpoint is lower than the reference setpoint; else
true iff `reference.temperature - current.temperature ≥ 1`. -/
def trendDetectorSpec (hist : List Sample) : Bool :=
  match hist.getLast?, hist[max 0 (hist.length - 3)]? with
  | some current, some reference =>
      decide (2 ≤ hist.length) &&
      decide (reference.setpoint ≤ current.setpoint) &&
      decide (reference.temperature - current.temperature ≥ 1)
  | _, _ => false

/-! ## Theorems -/

/-- C2: the Trend Detector returns true iff the buffer has ≥ 2 samples, the
current setpoint is not lower than the reference setpoint (reference = sample
at index `max(0, length-3)`), and the reference-to-current temperature drop is
at least 1 degree; in particular it is false on short buffers and under a
lowered setpoint. -/
theorem trend_detector_matches_spec (hist : List Sample) :
    isTemperatureDeclining hist = trendDetectorSpec hist := by
  rcases hist with _ | ⟨a, _ | ⟨b, t⟩⟩
  · rfl
  · rfl
  · have hlen : (a :: b :: t).length = t.length + 2 := by simp
    have h1 : (a :: b :: t).length - 1 < (a :: b :: t).length := by omega
    have h3 : (a :: b :: t).length - 3 < (a :: b :: t).length := by omega
    simp only [isTemperatureDeclining, trendDetectorSpec]
    rw [if_neg (by omega)]
    rw [List.getLast?_eq_getElem?, List.getElem?_eq_getElem h1]
    rw [Nat.zero_max, List.getElem?_eq_getElem h3]
    rw [List.getD_eq_getElem?_getD, List.getElem?_eq_getElem h1, Option.getD_some]
    rw [List.getD_eq_getElem?_getD, List.getElem?_eq_getElem h3, Option.getD_some]
    rw [decide_eq_true (show 2 ≤ (a :: b :: t).length by omega)]
    dsimp only
    rw [Bool.true_and]
    by_cases hsp :
        ((a :: b :: t)[(a :: b :: t).length - 1]).setpoint <
          ((a :: b :: t)[(a :: b :: t).length - 3]).setpoint
    · rw [if_pos hsp, decide_eq_false (not_le.mpr hsp), Bool.false_and]
    · rw [if_neg hsp, decide_eq_true (not_lt.mp hsp), Bool.true_and]

/-- Helper: recording one sample preserves the sliding-window presentation of
the buffer as the most recent `MAX_HISTORY`-suffix of everything recorded. -/
lemma addTempReading_window (rs : List Sample) (now : ℤ) (t s : ℚ) :
    addTempReading (rs.drop (rs.length - MAX_HISTORY)) now t s =
      (rs ++ [(⟨now, t, s⟩ : Sample)]).drop
        ((rs ++ [(⟨now, t, s⟩ : Sample)]).length - MAX_HISTORY) := by
  simp only [addTempReading, MAX_HISTORY]
  by_cases h : rs.length ≤ 9
  · have hcond : ¬ (rs.drop (rs.length - 10) ++ [(⟨now, t, s⟩ : Sample)]).length > 10 := by
      simp only [List.length_append, List.length_drop, List.length_cons,
        List.length_nil]
      omega
    rw [if_neg hcond]
    have hd0 : rs.length - 10 = 0 := by omega
    have hd1 : (rs ++ [(⟨now, t, s⟩ : Sample)]).length - 10 = 0 := by
      simp only [List.length_append, List.length_cons, List.length_nil]
      omega
    rw [hd0, hd1, List.drop_zero, List.drop_zero]
  · push_neg at h
    have hcond : (rs.drop (rs.length - 10) ++ [(⟨now, t, s⟩ : Sample)]).length > 10 := by
      simp only [List.length_append, List.length_drop, List.length_cons,
        List.length_nil]
      omega
    rw [if_pos hcond]
    have hd1 : (rs ++ [(⟨now, t, s⟩ : Sample)]).length - 10 = rs.length - 9 := by
      simp only [List.length_append, List.length_cons, List.length_nil]
      omega
    rw [hd1, List.drop_append_of_le_length (by omega)]
    obtain ⟨c, cs, hc⟩ : ∃ c cs, rs.drop (rs.length - 10) = c :: cs := by
      cases hcc : rs.drop (rs.length - 10) with
      | nil =>
          exfalso
          have hlen := List.length_drop (rs.length - 10) rs
          rw [hcc] at hlen
          simp only [List.length_nil] at hlen
          omega
      | cons c cs => exact ⟨c, cs, rfl⟩
    rw [hc]
    simp only [List.cons_append, List.tail_cons]
    congr 1
    have htl : (c :: cs).tail = cs := rfl
    rw [← htl, ← hc, List.tail_drop]
    congr 1
    omega

/-- Helper: running any operation sequence from a window-shaped buffer leaves
a window-shaped buffer over the samples recorded since the last clear. -/
lemma runHistOps_window (ops : List HistOp) :
    ∀ rs : List Sample,
      runHistOps (rs.drop (rs.length - MAX_HISTORY)) ops =
        (recordedAux rs ops).drop ((recordedAux rs ops).length - MAX_HISTORY) := by
  induction ops with
  | nil => intro rs; rfl
  | cons op rest ih =>
    intro rs
    cases op with
    | record now t s =>
        have step : runHistOps (rs.drop (rs.length - MAX_HISTORY))
              (HistOp.record now t s :: rest) =
            runHistOps
              (addTempReading (rs.drop (rs.length - MAX_HISTORY)) now t s) rest := rfl
        have stepR : recordedAux rs (HistOp.record now t s :: rest) =
            recordedAux (rs ++ [⟨now, t, s⟩]) rest := rfl
        rw [step, stepR, addTempReading_window]
        apply ih
    | clear =>
        have step : runHistOps (rs.drop (rs.length - MAX_HISTORY))
              (HistOp.clear :: rest) = runHistOps [] rest := rfl
        have stepR : recordedAux rs (HistOp.clear :: rest) = recordedAux [] rest := rfl
        have h0 : ([] : List Sample) =
            ([] : List Sample).drop (([] : List Sample).length - MAX_HISTORY) := rfl
        rw [step, stepR]
        conv_lhs => rw [h0]
        apply ih

/-- C7: after any sequence of `record`/`clear` operations starting from the
empty buffer, the History Buffer holds exactly the most recent
`min(k, MAX_HISTORY)` samples recorded since the last clear, in insertion
order (the `MAX_HISTORY`-bounded suffix), and its length never exceeds
`MAX_HISTORY` = 10. -/
theorem history_buffer_window (ops : List HistOp) :
    runHistOps [] ops =
      (recordedSinceClear ops).drop
        ((recordedSinceClear ops).length - MAX_HISTORY) ∧
    (runHistOps [] ops).length ≤ MAX_HISTORY := by
  have h := runHistOps_window ops []
  rw [List.drop_nil] at h
  refine ⟨h, ?_⟩
  rw [h, List.length_drop]
  simp only [MAX_HISTORY]
  omega

/-- C10: on buffers of length ≥ 3 the Trend Detector's decision depends only
on the last three samples: evaluating it on the three-sample suffix gives the
same result, so older samples never affect the outcome. -/
theorem trend_depends_on_last_three (hist : List Sample) (h3 : 3 ≤ hist.length) :
    isTemperatureDeclining (hist.drop (hist.length - 3)) =
      isTemperatureDeclining hist := by
  have hs : (hist.drop (hist.length - 3)).length = 3 := by
    rw [List.length_drop]; omega
  have e2 : (hist.drop (hist.length - 3)).getD (3 - 1) default =
      hist.getD (hist.length - 1) default := by
    rw [List.getD_eq_getElem?_getD, List.getD_eq_getElem?_getD,
      List.getElem?_drop]
    congr 2
    omega
  have e0 : (hist.drop (hist.length - 3)).getD (max 0 (3 - 3)) default =
      hist.getD (max 0 (hist.length - 3)) default := by
    rw [List.getD_eq_getElem?_getD, List.getD_eq_getElem?_getD,
      List.getElem?_drop]
    congr 2
    omega
  simp only [isTemperatureDeclining, hs]
  rw [if_neg (by norm_num : ¬ (3 : ℕ) < 2), if_neg (by omega : ¬ hist.length < 2)]
  rw [e2, e0]

/-! ### Helper lemmas about the state machine -/

/-- `cyclePlug` reports success only when the gateway's plug-ON call
reported success. -/
lemma cyclePlug_ok_true {gw : Gateway} (h : cyclePlug gw = Except.ok true) :
    gw.plugOnRes = Except.ok true := by
  unfold cyclePlug at h
  split at h
  · exact absurd h (by simp)
  · exact absurd h (by simp)
  · split at h
    · exact absurd h (by simp)
    · exact absurd h (by simp)
    · split at h
      · exact absurd h (by simp)
      · exact absurd h (by simp)
      · assumption

lemma dispatch_monitoring {w : Watchdog} (gw : Gateway) (now : ℤ)
    (hw : w.state = State.MONITORING) :
    dispatch w gw now = handleMonitoring w gw now := by
  unfold dispatch; rw [hw]

lemma dispatch_failed {w : Watchdog} (gw : Gateway) (now : ℤ)
    (hw : w.state = State.FAILED) :
    dispatch w gw now = handleFailed w gw := by
  unfold dispatch; rw [hw]

lemma tick_eq_of_dispatch_ok {w w' : Watchdog} {gw : Gateway} {now : ℤ}
    (h : dispatch w gw now = Except.ok w') : tick w gw now = w' := by
  unfold tick; rw [h]

lemma tick_eq_of_dispatch_error {w w' : Watchdog} {gw : Gateway} {now : ℤ}
    (h : dispatch w gw now = Except.error w') : tick w gw now = w' := by
  unfold tick; rw [h]

lemma monitoringUpdate_state (w : Watchdog) (now : ℤ) (data : ThermoData) :
    (monitoringUpdate w now data).state = w.state := by
  simp only [monitoringUpdate]
  split <;> rfl

lemma monitoringUpdate_lastCycleTime (w : Watchdog) (now : ℤ) (data : ThermoData) :
    (monitoringUpdate w now data).lastCycleTime = w.lastCycleTime := by
  simp only [monitoringUpdate]
  split <;> rfl

lemma monitoringUpdate_tempHistory (w : Watchdog) (now : ℤ) (data : ThermoData) :
    (monitoringUpdate w now data).tempHistory =
      addTempReading w.tempHistory now data.temperature data.heatSetpoint := by
  simp only [monitoringUpdate]
  split <;> rfl

lemma monitoringUpdate_cycleCount_cases (w : Watchdog) (now : ℤ) (data : ThermoData) :
    (monitoringUpdate w now data).cycleCount = 0 ∨
      (monitoringUpdate w now data).cycleCount = w.cycleCount := by
  simp only [monitoringUpdate]
  split
  · exact Or.inl rfl
  · exact Or.inr rfl

/-- When the intervention condition's first two conjuncts hold, the
recovery-reset does not fire, so `cycleCount` is untouched. -/
lemma monitoringUpdate_cycleCount_heating {data : ThermoData}
    (w : Watchdog) (now : ℤ)
    (hheat : data.workingState = "heating")
    (hbelow : data.heatSetpoint - data.temperature ≥ CONFIG.tempThreshold) :
    (monitoringUpdate w now data).cycleCount = w.cycleCount := by
  simp only [monitoringUpdate]
  rw [if_neg]
  rintro ⟨-, h2 | h2⟩
  · exact h2 hheat
  · exact absurd hbelow (not_le.mpr h2)

lemma handleMonitoring_data {gw : Gateway} (w : Watchdog) (now : ℤ)
    (data : ThermoData) (hc : checkThermostat gw = Except.ok (some data)) :
    handleMonitoring w gw now = monitoringWithData w gw now data := by
  unfold handleMonitoring; rw [hc]

lemma handleMonitoring_none {gw : Gateway} (w : Watchdog) (now : ℤ)
    (hc : checkThermostat gw = Except.ok none) :
    handleMonitoring w gw now = Except.ok w := by
  unfold handleMonitoring; rw [hc]

lemma handleMonitoring_throw {gw : Gateway} (w : Watchdog) (now : ℤ) (e : Unit)
    (hc : checkThermostat gw = Except.error e) :
    handleMonitoring w gw now = Except.error w := by
  unfold handleMonitoring; rw [hc]

/-- Path lemma: the ignition edge. -/
lemma mwd_edge (w : Watchdog) (gw : Gateway) (now : ℤ) (data : ThermoData)
    (h : data.workingState = "heating" ∧ w.lastWorkingState ≠ some "heating") :
    monitoringWithData w gw now data =
      Except.ok { w with ignitionStartTime := some now
                         tempHistory := []
                         lastWorkingState := some data.workingState
                         state := State.WAITING_FOR_IGNITION } := by
  simp only [monitoringWithData]
  rw [if_pos h]

/-- Path lemma: no edge and no intervention. -/
lemma mwd_no_intervention (w : Watchdog) (gw : Gateway) (now : ℤ)
    (data : ThermoData)
    (hne : ¬(data.workingState = "heating" ∧ w.lastWorkingState ≠ some "heating"))
    (hni : ¬(data.workingState = "heating" ∧
        data.heatSetpoint - data.temperature ≥ CONFIG.tempThreshold ∧
        isTemperatureDeclining (monitoringUpdate w now data).tempHistory = true)) :
    monitoringWithData w gw now data = Except.ok (monitoringUpdate w now data) := by
  simp only [monitoringWithData]
  rw [if_neg hne, if_neg hni]

/-- Path lemma: intervention needed but the cycle budget is exhausted. -/
lemma mwd_max_failed (w : Watchdog) (gw : Gateway) (now : ℤ) (data : ThermoData)
    (hne : ¬(data.workingState = "heating" ∧ w.lastWorkingState ≠ some "heating"))
    (hint : data.workingState = "heating" ∧
        data.heatSetpoint - data.temperature ≥ CONFIG.tempThreshold ∧
        isTemperatureDeclining (monitoringUpdate w now data).tempHistory = true)
    (hmax : (monitoringUpdate w now data).cycleCount ≥ CONFIG.maxCycles) :
    monitoringWithData w gw now data =
      Except.ok { monitoringUpdate w now data with state := State.FAILED } := by
  simp only [monitoringWithData]
  rw [if_neg hne, if_pos hint, if_pos hmax]

/-- Path lemma: intervention with budget left, `cyclePlug` throws: the error
payload is the already-mutated `monitoringUpdate` state. -/
lemma mwd_cycle_throw (w : Watchdog) (gw : Gateway) (now : ℤ) (data : ThermoData)
    (e : Unit)
    (hne : ¬(data.workingState = "heating" ∧ w.lastWorkingState ≠ some "heating"))
    (hint : data.workingState = "heating" ∧
        data.heatSetpoint - data.temperature ≥ CONFIG.tempThreshold ∧
        isTemperatureDeclining (monitoringUpdate w now data).tempHistory = true)
    (hlt : (monitoringUpdate w now data).cycleCount < CONFIG.maxCycles)
    (hcp : cyclePlug gw = Except.error e) :
    monitoringWithData w gw now data =
      Except.error (monitoringUpdate w now data) := by
  simp only [monitoringWithData]
  rw [if_neg hne, if_pos hint, if_neg (not_le.mpr hlt), hcp]

/-- Path lemma: intervention with budget left, `cyclePlug` reports failure:
no transition, counters untouched beyond `monitoringUpdate`. -/
lemma mwd_cycle_fail (w : Watchdog) (gw : Gateway) (now : ℤ) (data : ThermoData)
    (hne : ¬(data.workingState = "heating" ∧ w.lastWorkingState ≠ some "heating"))
    (hint : data.workingState = "heating" ∧
        data.heatSetpoint - data.temperature ≥ CONFIG.tempThreshold ∧
        isTemperatureDeclining (monitoringUpdate w now data).tempHistory = true)
    (hlt : (monitoringUpdate w now data).cycleCount < CONFIG.maxCycles)
    (hcp : cyclePlug gw = Except.ok false) :
    monitoringWithData w gw now data = Except.ok (monitoringUpdate w now data) := by
  simp only [monitoringWithData]
  rw [if_neg hne, if_pos hint, if_neg (not_le.mpr hlt), hcp]

/-- Path lemma: intervention with budget left, `cyclePlug` reports success:
increment the counter, arm the timer, go to WAITING_AFTER_CYCLE. -/
lemma mwd_cycle_success (w : Watchdog) (gw : Gateway) (now : ℤ) (data : ThermoData)
    (hne : ¬(data.workingState = "heating" ∧ w.lastWorkingState ≠ some "heating"))
    (hint : data.workingState = "heating" ∧
        data.heatSetpoint - data.temperature ≥ CONFIG.tempThreshold ∧
        isTemperatureDeclining (monitoringUpdate w now data).tempHistory = true)
    (hlt : (monitoringUpdate w now data).cycleCount < CONFIG.maxCycles)
    (hcp : cyclePlug gw = Except.ok true) :
    monitoringWithData w gw now data =
      Except.ok { monitoringUpdate w now data with
                    cycleCount := (monitoringUpdate w now data).cycleCount + 1
                    lastCycleTime := some now
                    state := State.WAITING_AFTER_CYCLE } := by
  simp only [monitoringWithData]
  rw [if_neg hne, if_pos hint, if_neg (not_le.mpr hlt), hcp]

/-- If `monitoringWithData` throws, the error payload keeps the state and the
cycle count (the throw can only come from `cyclePlug`, which is reached only
under the intervention condition, where the recovery-reset cannot fire). -/
lemma mwd_error_inv {w w' : Watchdog} {gw : Gateway} {now : ℤ} {data : ThermoData}
    (h : monitoringWithData w gw now data = Except.error w') :
    w'.state = w.state ∧ w'.cycleCount = w.cycleCount := by
  by_cases hedge : data.workingState = "heating" ∧ w.lastWorkingState ≠ some "heating"
  · rw [mwd_edge w gw now data hedge] at h
    exact absurd h (by simp)
  · by_cases hint : data.workingState = "heating" ∧
        data.heatSetpoint - data.temperature ≥ CONFIG.tempThreshold ∧
        isTemperatureDeclining (monitoringUpdate w now data).tempHistory = true
    · by_cases hmax : (monitoringUpdate w now data).cycleCount ≥ CONFIG.maxCycles
      · rw [mwd_max_failed w gw now data hedge hint hmax] at h
        exact absurd h (by simp)
      · rcases hcp : cyclePlug gw with e | b
        · rw [mwd_cycle_throw w gw now data e hedge hint (not_le.mp hmax) hcp] at h
          injection h with h
          subst h
          exact ⟨monitoringUpdate_state w now data,
            monitoringUpdate_cycleCount_heating w now hint.1 hint.2.1⟩
        · cases b
          · rw [mwd_cycle_fail w gw now data hedge hint (not_le.mp hmax) hcp] at h
            exact absurd h (by simp)
          · rw [mwd_cycle_success w gw now data hedge hint (not_le.mp hmax) hcp] at h
            exact absurd h (by simp)
    · rw [mwd_no_intervention w gw now data hedge hint] at h
      exact absurd h (by simp)

/-- If `monitoringWithData` returns normally, the new cycle count is 0, the
old count, or the old count plus one — and the increment only happens while
strictly below `maxCycles`. -/
lemma mwd_ok_cycleCount {w w' : Watchdog} {gw : Gateway} {now : ℤ}
    {data : ThermoData}
    (h : monitoringWithData w gw now data = Except.ok w') :
    w'.cycleCount = 0 ∨ w'.cycleCount = w.cycleCount ∨
      (w'.cycleCount = w.cycleCount + 1 ∧ w.cycleCount < CONFIG.maxCycles) := by
  by_cases hedge : data.workingState = "heating" ∧ w.lastWorkingState ≠ some "heating"
  · rw [mwd_edge w gw now data hedge] at h
    injection h with h
    subst h
    exact Or.inr (Or.inl rfl)
  · by_cases hint : data.workingState = "heating" ∧
        data.heatSetpoint - data.temperature ≥ CONFIG.tempThreshold ∧
        isTemperatureDeclining (monitoringUpdate w now data).tempHistory = true
    · by_cases hmax : (monitoringUpdate w now data).cycleCount ≥ CONFIG.maxCycles
      · rw [mwd_max_failed w gw now data hedge hint hmax] at h
        injection h with h
        subst h
        rcases monitoringUpdate_cycleCount_cases w now data with h0 | h0
        · exact Or.inl h0
        · exact Or.inr (Or.inl h0)
      · have hmucc : (monitoringUpdate w now data).cycleCount = w.cycleCount :=
          monitoringUpdate_cycleCount_heating w now hint.1 hint.2.1
        rcases hcp : cyclePlug gw with e | b
        · rw [mwd_cycle_throw w gw now data e hedge hint (not_le.mp hmax) hcp] at h
          exact absurd h (by simp)
        · cases b
          · rw [mwd_cycle_fail w gw now data hedge hint (not_le.mp hmax) hcp] at h
            injection h with h
            subst h
            exact Or.inr (Or.inl hmucc)
          · rw [mwd_cycle_success w gw now data hedge hint (not_le.mp hmax) hcp] at h
            injection h with h
            subst h
            refine Or.inr (Or.inr ⟨?_, ?_⟩)
            · show (monitoringUpdate w now data).cycleCount + 1 = w.cycleCount + 1
              rw [hmucc]
            · have hlt := not_le.mp hmax
              rw [hmucc] at hlt
              exact hlt
    · rw [mwd_no_intervention w gw now data hedge hint] at h
      injection h with h
      subst h
      rcases monitoringUpdate_cycleCount_cases w now data with h0 | h0
      · exact Or.inl h0
      · exact Or.inr (Or.inl h0)

/-- If any gateway call threw during the tick, the partially mutated payload
state keeps `state` and `cycleCount`. -/
lemma dispatch_error_inv {w w' : Watchdog} {gw : Gateway} {now : ℤ}
    (h : dispatch w gw now = Except.error w') :
    w'.state = w.state ∧ w'.cycleCount = w.cycleCount := by
  unfold dispatch at h
  split at h
  · unfold handleMonitoring at h
    split at h
    · injection h with h
      subst h
      exact ⟨rfl, rfl⟩
    · exact absurd h (by simp)
    · exact mwd_error_inv h
  · simp only [handleWaitingForIgnition] at h
    split at h
    · exact absurd h (by simp)
    · exact absurd h (by simp)
  · simp only [handleWaitingAfterCycle] at h
    split at h
    · exact absurd h (by simp)
    · exact absurd h (by simp)
  · unfold handleFailed at h
    split at h
    · injection h with h
      subst h
      exact ⟨rfl, rfl⟩
    · exact absurd h (by simp)
    · dsimp only at h
      split at h
      · exact absurd h (by simp)
      · exact absurd h (by simp)

/-- On a normal tick, the cycle count is reset, kept, or incremented by one
under the `maxCycles` guard. -/
lemma dispatch_ok_cycleCount {w w' : Watchdog} {gw : Gateway} {now : ℤ}
    (h : dispatch w gw now = Except.ok w') :
    w'.cycleCount = 0 ∨ w'.cycleCount = w.cycleCount ∨
      (w'.cycleCount = w.cycleCount + 1 ∧ w.cycleCount < CONFIG.maxCycles) := by
  unfold dispatch at h
  split at h
  · unfold handleMonitoring at h
    split at h
    · exact absurd h (by simp)
    · injection h with h
      subst h
      exact Or.inr (Or.inl rfl)
    · exact mwd_ok_cycleCount h
  · simp only [handleWaitingForIgnition] at h
    split at h
    · injection h with h
      subst h
      exact Or.inr (Or.inl rfl)
    · injection h with h
      subst h
      exact Or.inr (Or.inl rfl)
  · simp only [handleWaitingAfterCycle] at h
    split at h
    · injection h with h
      subst h
      exact Or.inr (Or.inl rfl)
    · injection h with h
      subst h
      exact Or.inr (Or.inl rfl)
  · unfold handleFailed at h
    split at h
    · exact absurd h (by simp)
    · injection h with h
      subst h
      exact Or.inr (Or.inl rfl)
    · dsimp only at h
      split at h
      · injection h with h
        subst h
        exact Or.inl rfl
      · injection h with h
        subst h
        exact Or.inr (Or.inl rfl)

/-- A `tickThrew` tick comes from a `dispatch` error. -/
lemma tickThrew_dispatch {w : Watchdog} {gw : Gateway} {now : ℤ}
    (h : tickThrew w gw now = true) :
    ∃ w', dispatch w gw now = Except.error w' := by
  unfold tickThrew at h
  split at h
  · exact absurd h (by simp)
  · exact ⟨_, by assumption⟩

/-- The thermostat read never consults the plug-related gateway responses. -/
lemma checkThermostat_plugs (gw : Gateway) (pd : Except Unit (List Device))
    (po pn : Except Unit Bool) :
    checkThermostat { gw with plugDevices := pd, plugOffRes := po, plugOnRes := pn } =
      checkThermostat gw := rfl

/-- `handleFailed` never consults the plug-related gateway responses. -/
lemma handleFailed_plugs (w : Watchdog) (gw : Gateway)
    (pd : Except Unit (List Device)) (po pn : Except Unit Bool) :
    handleFailed w { gw with plugDevices := pd, plugOffRes := po, plugOnRes := pn } =
      handleFailed w gw := rfl

/-- Path lemma: FAILED resolves (not heating, or back within threshold). -/
lemma handleFailed_resolved {gw : Gateway} (w : Watchdog) (data : ThermoData)
    (hc : checkThermostat gw = Except.ok (some data))
    (hres : data.workingState ≠ "heating" ∨
      data.heatSetpoint - data.temperature < CONFIG.tempThreshold) :
    handleFailed w gw =
      Except.ok { w with cycleCount := 0
                         tempHistory := []
                         state := State.MONITORING } := by
  unfold handleFailed
  rw [hc]
  dsimp only
  rw [if_pos hres]

/-- Path lemma: FAILED persists while still heating and below threshold. -/
lemma handleFailed_unresolved {gw : Gateway} (w : Watchdog) (data : ThermoData)
    (hc : checkThermostat gw = Except.ok (some data))
    (hheat : data.workingState = "heating")
    (hbelow : data.heatSetpoint - data.temperature ≥ CONFIG.tempThreshold) :
    handleFailed w gw = Except.ok w := by
  unfold handleFailed
  rw [hc]
  dsimp only
  rw [if_neg]
  rintro (h | h)
  · exact h hheat
  · exact absurd hbelow (not_le.mpr h)

/-- Path lemma: FAILED with a missing thermostat is a no-op. -/
lemma handleFailed_none {gw : Gateway} (w : Watchdog)
    (hc : checkThermostat gw = Except.ok none) :
    handleFailed w gw = Except.ok w := by
  unfold handleFailed
  rw [hc]

/-! ### The claims -/

/-- C1: a MONITORING tick transitions to WAITING_AFTER_CYCLE only when the
power-cycle procedure completed successfully, and that success entails the
gateway's plug-ON call having reported (verified) the plug ON — not merely
that some command was sent. -/
theorem monitoring_transition_requires_verified_on
    (w : Watchdog) (gw : Gateway) (now : ℤ)
    (hw : w.state = State.MONITORING)
    (ht : (tick w gw now).state = State.WAITING_AFTER_CYCLE) :
    cyclePlug gw = Except.ok true ∧ gw.plugOnRes = Except.ok true := by
  have hd := dispatch_monitoring gw now hw
  rcases hc : checkThermostat gw with e | od
  · have he : dispatch w gw now = Except.error w := by
      rw [hd, handleMonitoring_throw w now e hc]
    rw [tick_eq_of_dispatch_error he, hw] at ht
    simp at ht
  · rcases od with _ | data
    · have he : dispatch w gw now = Except.ok w := by
        rw [hd, handleMonitoring_none w now hc]
      rw [tick_eq_of_dispatch_ok he, hw] at ht
      simp at ht
    · have hm : handleMonitoring w gw now = monitoringWithData w gw now data :=
        handleMonitoring_data w now data hc
      by_cases hedge : data.workingState = "heating" ∧
          w.lastWorkingState ≠ some "heating"
      · have he : dispatch w gw now =
            Except.ok { w with ignitionStartTime := some now
                               tempHistory := []
                               lastWorkingState := some data.workingState
                               state := State.WAITING_FOR_IGNITION } := by
          rw [hd, hm, mwd_edge w gw now data hedge]
        rw [tick_eq_of_dispatch_ok he] at ht
        simp at ht
      · by_cases hint : data.workingState = "heating" ∧
            data.heatSetpoint - data.temperature ≥ CONFIG.tempThreshold ∧
            isTemperatureDeclining (monitoringUpdate w now data).tempHistory = true
        · by_cases hmax : (monitoringUpdate w now data).cycleCount ≥ CONFIG.maxCycles
          · have he : dispatch w gw now =
                Except.ok { monitoringUpdate w now data with state := State.FAILED } := by
              rw [hd, hm, mwd_max_failed w gw now data hedge hint hmax]
            rw [tick_eq_of_dispatch_ok he] at ht
            simp at ht
          · rcases hcp : cyclePlug gw with e | b
            · have he : dispatch w gw now =
                  Except.error (monitoringUpdate w now data) := by
                rw [hd, hm,
                  mwd_cycle_throw w gw now data e hedge hint (not_le.mp hmax) hcp]
              rw [tick_eq_of_dispatch_error he, monitoringUpdate_state, hw] at ht
              simp at ht
            · cases b
              · have he : dispatch w gw now =
                    Except.ok (monitoringUpdate w now data) := by
                  rw [hd, hm,
                    mwd_cycle_fail w gw now data hedge hint (not_le.mp hmax) hcp]
                rw [tick_eq_of_dispatch_ok he, monitoringUpdate_state, hw] at ht
                simp at ht
              · exact ⟨rfl, cyclePlug_ok_true hcp⟩
        · have he : dispatch w gw now = Except.ok (monitoringUpdate w now data) := by
            rw [hd, hm, mwd_no_intervention w gw now data hedge hint]
          rw [tick_eq_of_dispatch_ok he, monitoringUpdate_state, hw] at ht
          simp at ht

/-- C3: a MONITORING tick that detects the intervention condition with the
cycle budget already exhausted transitions to FAILED without issuing any
plug command (the tick's outcome is independent of the plug-related gateway
responses). -/
theorem monitoring_max_cycles_fails
    (w : Watchdog) (gw : Gateway) (now : ℤ) (data : ThermoData)
    (hw : w.state = State.MONITORING)
    (hlast : w.lastWorkingState = some "heating")
    (hc : checkThermostat gw = Except.ok (some data))
    (hheat : data.workingState = "heating")
    (hbelow : data.heatSetpoint - data.temperature ≥ CONFIG.tempThreshold)
    (hdecl : isTemperatureDeclining
      (addTempReading w.tempHistory now data.temperature data.heatSetpoint) = true)
    (hmax : w.cycleCount ≥ CONFIG.maxCycles) :
    (tick w gw now).state = State.FAILED ∧
    (∀ pd po pn,
      tick w { gw with plugDevices := pd, plugOffRes := po, plugOnRes := pn } now =
        tick w gw now) := by
  have hedge : ¬(data.workingState = "heating" ∧
      w.lastWorkingState ≠ some "heating") := fun h => h.2 hlast
  have hdecl' : isTemperatureDeclining (monitoringUpdate w now data).tempHistory = true := by
    rw [monitoringUpdate_tempHistory]; exact hdecl
  have hint : data.workingState = "heating" ∧
      data.heatSetpoint - data.temperature ≥ CONFIG.tempThreshold ∧
      isTemperatureDeclining (monitoringUpdate w now data).tempHistory = true :=
    ⟨hheat, hbelow, hdecl'⟩
  have hmax' : (monitoringUpdate w now data).cycleCount ≥ CONFIG.maxCycles := by
    rw [monitoringUpdate_cycleCount_heating w now hheat hbelow]; exact hmax
  have key : ∀ g : Gateway, checkThermostat g = Except.ok (some data) →
      tick w g now = { monitoringUpdate w now data with state := State.FAILED } := by
    intro g hg
    exact tick_eq_of_dispatch_ok (by
      rw [dispatch_monitoring g now hw, handleMonitoring_data w now data hg,
        mwd_max_failed w g now data hedge hint hmax'])
  constructor
  · rw [key gw hc]
  · intro pd po pn
    rw [key gw hc, key _ (by rw [checkThermostat_plugs]; exact hc)]

/-- C4: a FAILED tick with thermostat data resets (cycle count to 0, history
cleared, back to MONITORING) exactly when not heating or back within the
threshold; otherwise it is a strict no-op, and in all cases the outcome never
depends on the plug-related gateway responses (no plug command). -/
theorem failed_tick_resolution
    (w : Watchdog) (gw : Gateway) (now : ℤ) (data : ThermoData)
    (hw : w.state = State.FAILED)
    (hc : checkThermostat gw = Except.ok (some data)) :
    ((data.workingState ≠ "heating" ∨
        data.heatSetpoint - data.temperature < CONFIG.tempThreshold) →
      tick w gw now =
        { w with cycleCount := 0, tempHistory := [], state := State.MONITORING }) ∧
    ((data.workingState = "heating" ∧
        data.heatSetpoint - data.temperature ≥ CONFIG.tempThreshold) →
      tick w gw now = w) ∧
    (∀ pd po pn,
      tick w { gw with plugDevices := pd, plugOffRes := po, plugOnRes := pn } now =
        tick w gw now) := by
  refine ⟨?_, ?_, ?_⟩
  · intro hres
    exact tick_eq_of_dispatch_ok (by
      rw [dispatch_failed gw now hw, handleFailed_resolved w data hc hres])
  · rintro ⟨hheat, hbelow⟩
    exact tick_eq_of_dispatch_ok (by
      rw [dispatch_failed gw now hw, handleFailed_unresolved w data hc hheat hbelow])
  · intro pd po pn
    unfold tick
    rw [dispatch_failed _ now hw, dispatch_failed gw now hw, handleFailed_plugs]

/-- C5: when some Device Gateway call throws during a tick, the exception is
contained in `tick` and the watchdog's `state` and `cycleCount` are exactly
what they were before the tick. -/
theorem tick_throw_preserves_state_and_count
    (w : Watchdog) (gw : Gateway) (now : ℤ)
    (h : tickThrew w gw now = true) :
    (tick w gw now).state = w.state ∧
      (tick w gw now).cycleCount = w.cycleCount := by
  obtain ⟨w', hE⟩ := tickThrew_dispatch h
  rw [tick_eq_of_dispatch_error hE]
  exact dispatch_error_inv hE

/-- C6: a MONITORING tick under the intervention condition and with budget
left, whose power cycle reports failure, stays in MONITORING with
`cycleCount` and `lastCycleTime` untouched. -/
theorem monitoring_cycle_failure_keeps_state
    (w : Watchdog) (gw : Gateway) (now : ℤ) (data : ThermoData)
    (hw : w.state = State.MONITORING)
    (hlast : w.lastWorkingState = some "heating")
    (hc : checkThermostat gw = Except.ok (some data))
    (hheat : data.workingState = "heating")
    (hbelow : data.heatSetpoint - data.temperature ≥ CONFIG.tempThreshold)
    (hdecl : isTemperatureDeclining
      (addTempReading w.tempHistory now data.temperature data.heatSetpoint) = true)
    (hlt : w.cycleCount < CONFIG.maxCycles)
    (hfail : cyclePlug gw = Except.ok false) :
    (tick w gw now).state = State.MONITORING ∧
    (tick w gw now).cycleCount = w.cycleCount ∧
    (tick w gw now).lastCycleTime = w.lastCycleTime := by
  have hedge : ¬(data.workingState = "heating" ∧
      w.lastWorkingState ≠ some "heating") := fun h => h.2 hlast
  have hdecl' : isTemperatureDeclining (monitoringUpdate w now data).tempHistory = true := by
    rw [monitoringUpdate_tempHistory]; exact hdecl
  have hint : data.workingState = "heating" ∧
      data.heatSetpoint - data.temperature ≥ CONFIG.tempThreshold ∧
      isTemperatureDeclining (monitoringUpdate w now data).tempHistory = true :=
    ⟨hheat, hbelow, hdecl'⟩
  have hlt' : (monitoringUpdate w now data).cycleCount < CONFIG.maxCycles := by
    rw [monitoringUpdate_cycleCount_heating w now hheat hbelow]; exact hlt
  have he : tick w gw now = monitoringUpdate w now data :=
    tick_eq_of_dispatch_ok (by
      rw [dispatch_monitoring gw now hw, handleMonitoring_data w now data hc,
        mwd_cycle_fail w gw now data hedge hint hlt' hfail])
  rw [he, monitoringUpdate_state, hw, monitoringUpdate_lastCycleTime]
  exact ⟨rfl, monitoringUpdate_cycleCount_heating w now hheat hbelow, rfl⟩

/-- C8: `cycleCount` stays within `0 ≤ cycleCount ≤ maxCycles` on every tick
in every state: it is reset to 0, kept, or incremented by exactly one — and
an increment only happens from strictly below `maxCycles`. -/
theorem tick_cycleCount_bounded
    (w : Watchdog) (gw : Gateway) (now : ℤ)
    (hb : w.cycleCount ≤ CONFIG.maxCycles) :
    (tick w gw now).cycleCount ≤ CONFIG.maxCycles ∧
      ((tick w gw now).cycleCount = 0 ∨
        (tick w gw now).cycleCount = w.cycleCount ∨
        ((tick w gw now).cycleCount = w.cycleCount + 1 ∧
          w.cycleCount < CONFIG.maxCycles)) := by
  rcases hE : dispatch w gw now with w' | w'
  · rw [tick_eq_of_dispatch_error hE]
    have h2 := (dispatch_error_inv hE).2
    exact ⟨by omega, Or.inr (Or.inl h2)⟩
  · rw [tick_eq_of_dispatch_ok hE]
    have h2 := dispatch_ok_cycleCount hE
    refine ⟨?_, h2⟩
    rcases h2 with h0 | h0 | ⟨h0, hlt⟩ <;> omega

/-- C9: a MONITORING or FAILED tick whose gateway device list holds no
thermostat with the configured name leaves the entire watchdog state (all
fields) unchanged — a silently skipped tick, not a fatal error. -/
theorem missing_thermostat_noop
    (w : Watchdog) (gw : Gateway) (now : ℤ) (devices : List Device)
    (hw : w.state = State.MONITORING ∨ w.state = State.FAILED)
    (hd : gw.thermoDevices = Except.ok devices)
    (hn : devices.find?
      (fun d => d.nickname == CONFIG.thermostatName &&
        d.product_type == "Thermostat") = none) :
    tick w gw now = w := by
  have hgtn : getThermostatByName gw CONFIG.thermostatName = Except.ok none := by
    unfold getThermostatByName
    rw [hd]
    dsimp only
    rw [hn]
  have hc : checkThermostat gw = Except.ok none := by
    unfold checkThermostat
    rw [hgtn]
  rcases hw with hw | hw
  · exact tick_eq_of_dispatch_ok (by
      rw [dispatch_monitoring gw now hw, handleMonitoring_none w now hc])
  · exact tick_eq_of_dispatch_ok (by
      rw [dispatch_failed gw now hw, handleFailed_none w hc])

/-! ### Concrete witness scenarios -/

/-- A gateway whose every call succeeds: one thermostat reporting heating at
68.5° against a 72° setpoint, and one plug that cycles successfully. -/
def gwOk : Gateway :=
  { thermoDevices := .ok [⟨"Living Room", "Thermostat", "t-mac", "t-model"⟩]
    thermoData := .ok (some ⟨"heating", 68.5, 72⟩)
    plugDevices := .ok [⟨"Living Room", "Plug", "p-mac", "p-model"⟩]
    plugOffRes := .ok true
    plugOnRes := .ok true }

/-- Like `gwOk` but the thermostat reports idle. -/
def gwIdle : Gateway :=
  { gwOk with thermoData := .ok (some ⟨"idle", 68.5, 72⟩) }

/-- A gateway whose device-list call throws. -/
def gwThrow : Gateway :=
  { gwOk with thermoDevices := .error () }

/-- Like `gwOk` but with no plug in the device list. -/
def gwNoPlug : Gateway :=
  { gwOk with plugDevices := .ok [] }

/-- Like `gwOk` but with an empty device list for the thermostat lookup. -/
def gwNoThermo : Gateway :=
  { gwOk with thermoDevices := .ok [] }

/-- A MONITORING watchdog mid-run: one prior sample at 70°/72°, heating
observed last tick, no cycles yet. -/
def wMon : Watchdog :=
  { state := State.MONITORING
    cycleCount := 0
    lastCycleTime := none
    ignitionStartTime := none
    lastWorkingState := some "heating"
    tempHistory := [⟨0, 70, 72⟩] }

/-- `wMon` with the cycle budget already exhausted. -/
def wMax : Watchdog :=
  { wMon with cycleCount := 3 }

/-- A FAILED watchdog. -/
def wFailed : Watchdog :=
  { state := State.FAILED
    cycleCount := 3
    lastCycleTime := some 1000
    ignitionStartTime := none
    lastWorkingState := some "heating"
    tempHistory := [] }

/-- A four-sample history whose last three drive the Trend Detector. -/
def hist4 : List Sample :=
  [⟨0, 50, 72⟩, ⟨1, 70, 72⟩, ⟨2, 69.5, 72⟩, ⟨3, 68.5, 72⟩]

/-- Witness for C1 at a concrete transitioning tick. -/
theorem monitoring_transition_requires_verified_on_witness :
    cyclePlug gwOk = Except.ok true ∧ gwOk.plugOnRes = Except.ok true :=
  monitoring_transition_requires_verified_on wMon gwOk 60000 rfl (by
    norm_num [tick, dispatch, handleMonitoring, monitoringWithData,
      monitoringUpdate, checkThermostat, getThermostatByName, cyclePlug,
      getPlugByName, addTempReading, isTemperatureDeclining, wMon, gwOk,
      CONFIG, MAX_HISTORY, List.find?])

/-- Witness for C3 at a concrete exhausted-budget tick. -/
theorem monitoring_max_cycles_fails_witness :
    (tick wMax gwOk 60000).state = State.FAILED ∧
    (∀ pd po pn,
      tick wMax { gwOk with plugDevices := pd, plugOffRes := po, plugOnRes := pn }
          60000 =
        tick wMax gwOk 60000) :=
  monitoring_max_cycles_fails wMax gwOk 60000 ⟨"heating", 68.5, 72⟩ rfl rfl rfl rfl
    (by norm_num [CONFIG])
    (by norm_num [addTempReading, isTemperatureDeclining, wMax, wMon, MAX_HISTORY])
    (by norm_num [wMax, wMon, CONFIG])

/-- Witness for C4 at a concrete FAILED tick whose thermostat reports idle. -/
theorem failed_tick_resolution_witness :
    ((("idle" : String) ≠ "heating" ∨
        (72 : ℚ) - 68.5 < CONFIG.tempThreshold) →
      tick wFailed gwIdle 0 =
        { wFailed with cycleCount := 0
                       tempHistory := []
                       state := State.MONITORING }) ∧
    ((("idle" : String) = "heating" ∧ (72 : ℚ) - 68.5 ≥ CONFIG.tempThreshold) →
      tick wFailed gwIdle 0 = wFailed) ∧
    (∀ pd po pn,
      tick wFailed { gwIdle with plugDevices := pd, plugOffRes := po, plugOnRes := pn }
          0 =
        tick wFailed gwIdle 0) :=
  failed_tick_resolution wFailed gwIdle 0 ⟨"idle", 68.5, 72⟩ rfl rfl

/-- Witness for C5 at a concrete throwing tick. -/
theorem tick_throw_preserves_state_and_count_witness :
    (tick initialWatchdog gwThrow 0).state = initialWatchdog.state ∧
      (tick initialWatchdog gwThrow 0).cycleCount = initialWatchdog.cycleCount :=
  tick_throw_preserves_state_and_count initialWatchdog gwThrow 0 rfl

/-- Witness for C6 at a concrete tick whose power cycle fails (plug missing). -/
theorem monitoring_cycle_failure_keeps_state_witness :
    (tick wMon gwNoPlug 60000).state = State.MONITORING ∧
    (tick wMon gwNoPlug 60000).cycleCount = wMon.cycleCount ∧
    (tick wMon gwNoPlug 60000).lastCycleTime = wMon.lastCycleTime :=
  monitoring_cycle_failure_keeps_state wMon gwNoPlug 60000 ⟨"heating", 68.5, 72⟩
    rfl rfl rfl rfl
    (by norm_num [CONFIG])
    (by norm_num [addTempReading, isTemperatureDeclining, wMon, MAX_HISTORY])
    (by norm_num [wMon, CONFIG])
    rfl

/-- Witness for C8 at a concrete tick. -/
theorem tick_cycleCount_bounded_witness :
    (tick initialWatchdog gwOk 0).cycleCount ≤ CONFIG.maxCycles ∧
      ((tick initialWatchdog gwOk 0).cycleCount = 0 ∨
        (tick initialWatchdog gwOk 0).cycleCount = initialWatchdog.cycleCount ∨
        ((tick initialWatchdog gwOk 0).cycleCount = initialWatchdog.cycleCount + 1 ∧
          initialWatchdog.cycleCount < CONFIG.maxCycles)) :=
  tick_cycleCount_bounded initialWatchdog gwOk 0 (by norm_num [initialWatchdog, CONFIG])

/-- Witness for C9 at a concrete tick with an empty device list. -/
theorem missing_thermostat_noop_witness :
    tick initialWatchdog gwNoThermo 0 = initialWatchdog :=
  missing_thermostat_noop initialWatchdog gwNoThermo 0 [] (Or.inl rfl) rfl rfl

/-- Witness for C10 on a concrete four-sample history. -/
theorem trend_depends_on_last_three_witness :
    isTemperatureDeclining (hist4.drop (hist4.length - 3)) =
      isTemperatureDeclining hist4 :=
  trend_depends_on_last_three hist4 (by norm_num [hist4])

end PelletStove
